import Mathlib

/-!
Shallow embedding of two Home Assistant platform adapters:

* `homeassistant/components/camera/bloomsky.py` — `BloomSkyCamera.camera_image`,
  an image cache keyed on the upstream image URL, with one fallible HTTP GET.
* `homeassistant/components/thermostat/radiotherm.py` — `RadioThermostat`,
  a thermostat adapter with an away-mode temperature offset, plus its
  `setup_platform` loop.

Python object attributes become structure fields; mutation becomes explicit
state passing; a Python exception becomes the error of an `Except`.
Temperatures are rationals; Python `round(x, 1)` is modelled as
round-half-to-even at one decimal place, Python's documented behaviour.
-/

/-- The Python exceptions that the embedded code can raise or catch. -/
inductive PyExn where
  /-- `TypeError`, e.g. from `round(None, 1)`. -/
  | typeError
  /-- `AttributeError`, reading an attribute never assigned. -/
  | attributeError
  /-- `urllib.error.URLError`. -/
  | urlError
  /-- `OSError`. -/
  | osError
  /-- `requests.exceptions.RequestException` (timeouts included). -/
  | requestException
  deriving DecidableEq, Repr

/-- A raised exception is a connection error when the `except (URLError, OSError)`
clause of `setup_platform` in `radiotherm.py` catches it. -/
def PyExn.isConnError : PyExn → Bool
  | .urlError => true
  | .osError => true
  | _ => false

/-! ## Camera: `BloomSkyCamera` (`camera/bloomsky.py`) -/

/-- Outcome of the `requests.get(self._url, timeout=10)` call in
`camera_image`: either a response whose `.content` is the given bytes, or a
raised `requests.exceptions.RequestException` (a timeout raises a subclass of
it). Bytes are modelled as `String`. -/
inductive GetOutcome where
  /-- The GET returned a response with this `.content`. -/
  | ok (content : String)
  /-- The GET raised a `RequestException`. -/
  | exn
  deriving DecidableEq, Repr

/-- The mutable attributes of a `BloomSkyCamera` that `camera_image` touches:
`self._url`, `self._last_url`, `self._last_image`. The constructor sets all
three to the empty string. -/
structure BloomSkyCamera where
  /-- `self._url` — the most recently observed upstream image URL. -/
  url : String
  /-- `self._last_url` — the URL whose download is cached. -/
  last_url : String
  /-- `self._last_image` — the cached downloaded bytes. -/
  last_image : String
  deriving DecidableEq, Repr

/-- The camera state built by `BloomSkyCamera.__init__`: all three cached
strings empty. -/
def BloomSkyCamera.init : BloomSkyCamera :=
  { url := "", last_url := "", last_image := "" }

/-- The body of the `try:` block of `camera_image`, before the
`except requests.exceptions.RequestException` clause. `observedUrl` is the
value read from `self._bloomsky.devices[self._id]["Data"]["ImageURL"]`, and
`get` is the outcome of the HTTP GET (consulted only if one is performed).
`refresh_devices()` mutates only the external client, so it does not appear in
the state. The result carries the new state, the returned bytes and the number
of HTTP GETs performed; the error carries the state as mutated up to the raise
and the number of GETs attempted. -/
def camera_image_try (s : BloomSkyCamera) (observedUrl : String) (get : GetOutcome) :
    Except (PyExn × BloomSkyCamera × Nat) (BloomSkyCamera × String × Nat) :=
  let s1 : BloomSkyCamera := { s with url := observedUrl }
  if s1.url ≠ s1.last_url then
    match get with
    | .ok content =>
        let s2 : BloomSkyCamera := { s1 with last_url := s1.url, last_image := content }
        .ok (s2, s2.last_image, 1)
    | .exn => .error (.requestException, s1, 1)
  else
    .ok (s1, s1.last_image, 0)

/-- `BloomSkyCamera.camera_image`: runs the `try:` body and handles
`RequestException` by logging and returning `None` (here `Option.none`). The
result is the new state, the value returned to the caller (`some bytes` or
`none`), and the number of HTTP GETs performed. The outer `Except PyExn` keeps
any exception NOT caught by the `except` clause; the claims ask that it never
holds an error. -/
def camera_image (s : BloomSkyCamera) (observedUrl : String) (get : GetOutcome) :
    Except PyExn (BloomSkyCamera × Option String × Nat) :=
  match camera_image_try s observedUrl get with
  | .ok (s', img, n) => .ok (s', some img, n)
  | .error (e, s', n) =>
      if e = .requestException then .ok (s', none, n) else .error e

/-! ## Thermostat: `RadioThermostat` (`thermostat/radiotherm.py`) -/

/-- The three symbolic operation states `STATE_COOL`, `STATE_HEAT`,
`STATE_IDLE` imported from `homeassistant.components.thermostat`. -/
inductive OpState where
  | cool
  | heat
  | idle
  deriving DecidableEq, Repr

/-- Round-half-to-even to the nearest integer, Python's `round` on an exact
value. -/
def pyRoundInt (q : ℚ) : ℤ :=
  let f : ℤ := Rat.floor q
  let frac : ℚ := q - (f : ℚ)
  if frac < 1 / 2 then f
  else if 1 / 2 < frac then f + 1
  else if f % 2 = 0 then f else f + 1

/-- Python `round(x, 1)`: round-half-to-even at one decimal place. -/
def pyRound1 (q : ℚ) : ℚ :=
  (pyRoundInt (10 * q) : ℚ) / 10

/-- The fields of the external `radiotherm` device-client object that
`radiotherm.py` reads or writes. Reads of `device.temp['raw']`,
`device.name['raw']`, `device.tmode['human']`, `device.fmode['human']`,
`device.t_cool['raw']`, `device.t_heat['raw']` become field reads; writes to
`device.t_cool`, `device.t_heat`, `device.hold`, `device.time` become field
updates. -/
structure TstatDevice where
  /-- `device.temp['raw']`. -/
  temp : ℚ
  /-- `device.name['raw']`. -/
  dname : String
  /-- `device.tmode['human']`, e.g. `"Cool"`, `"Heat"`, `"Off"`. -/
  tmode : String
  /-- `device.fmode['human']`. -/
  fmode : String
  /-- `device.t_cool['raw']`, also the target of writes to `device.t_cool`. -/
  t_cool : ℚ
  /-- `device.t_heat['raw']`, also the target of writes to `device.t_heat`. -/
  t_heat : ℚ
  /-- `device.hold`, written as `1` or `0`. -/
  hold : ℕ
  /-- `device.time`, written by `set_time` as day/hour/minute. -/
  time : ℕ × ℕ × ℕ
  deriving DecidableEq, Repr

/-- The attributes of a `RadioThermostat` entity. `_target_temperature` and
`_current_temperature` start as `None`, hence `Option`; `old_temp` is `none`
while the attribute has not yet been assigned (reading it then would raise
`AttributeError`). -/
structure RadioThermostat where
  /-- `self.device`, the external client handle. -/
  device : TstatDevice
  /-- `self._target_temperature`. -/
  target : Option ℚ
  /-- `self._current_temperature`. -/
  current : Option ℚ
  /-- `self._operation`. -/
  op : OpState
  /-- `self._name`. -/
  tname : Option String
  /-- `self.hold_temp`, from configuration. -/
  hold_temp : Bool
  /-- `self.away`. -/
  away : Bool
  /-- `self.away_delta`, from configuration. -/
  away_delta : ℚ
  /-- `self.old_temp`. -/
  old_temp : Option ℚ
  deriving DecidableEq, Repr

namespace RadioThermostat

/-- The `target_temperature` property: `round(self._target_temperature, 1)`,
which raises `TypeError` when `_target_temperature` is still `None`. -/
def target_temperature (s : RadioThermostat) : Except PyExn ℚ :=
  match s.target with
  | none => .error .typeError
  | some t => .ok (pyRound1 t)

/-- The `current_temperature` property: `round(self._current_temperature, 1)`,
raising `TypeError` on `None`. -/
def current_temperature (s : RadioThermostat) : Except PyExn ℚ :=
  match s.current with
  | none => .error .typeError
  | some t => .ok (pyRound1 t)

/-- The `is_away_mode_on` property. -/
def is_away_mode_on (s : RadioThermostat) : Bool :=
  s.away

/-- `set_temperature`: writes the mode-appropriate device setpoint
(`device.t_cool` when cooling, `device.t_heat` when heating, neither when
idle), then unconditionally writes `device.hold` as `1` if `self.hold_temp`
else `0`. -/
def set_temperature (s : RadioThermostat) (temperature : ℚ) : RadioThermostat :=
  let s1 :=
    if s.op = OpState.cool then { s with device := { s.device with t_cool := temperature } }
    else if s.op = OpState.heat then { s with device := { s.device with t_heat := temperature } }
    else s
  if s1.hold_temp then { s1 with device := { s1.device with hold := 1 } }
  else { s1 with device := { s1.device with hold := 0 } }

/-- `turn_away_mode_on`: sets `self.away`, saves
`self.old_temp = self.target_temperature` (which may raise `TypeError`), then
applies the delta through `set_temperature` — added when cooling, subtracted
when heating, by two independent `if` statements. -/
def turn_away_mode_on (s : RadioThermostat) : Except PyExn RadioThermostat :=
  let s1 : RadioThermostat := { s with away := true }
  match s1.target_temperature with
  | .error e => .error e
  | .ok t =>
    let s2 : RadioThermostat := { s1 with old_temp := some t }
    let s3 := if s2.op = OpState.cool then s2.set_temperature (t + s2.away_delta) else s2
    let s4 := if s3.op = OpState.heat then s3.set_temperature (t - s3.away_delta) else s3
    .ok s4

/-- `turn_away_mode_off`: clears `self.away` and writes the saved
`self.old_temp` back through `set_temperature`. Reading an `old_temp` that was
never assigned raises `AttributeError` (unreachable after a successful
constructor). -/
def turn_away_mode_off (s : RadioThermostat) : Except PyExn RadioThermostat :=
  let s1 : RadioThermostat := { s with away := false }
  match s1.old_temp with
  | none => .error .attributeError
  | some t => .ok (s1.set_temperature t)

/-- `update`: copies `device.temp['raw']` and `device.name['raw']` into the
entity, then branches on `device.tmode['human']`: `"Cool"` and `"Heat"` copy
the matching setpoint and set the operation; anything else only sets the
operation to idle, leaving `_target_temperature` untouched. -/
def update (s : RadioThermostat) : RadioThermostat :=
  let s1 : RadioThermostat := { s with current := some s.device.temp, tname := some s.device.dname }
  if s1.device.tmode = "Cool" then
    { s1 with target := some s1.device.t_cool, op := OpState.cool }
  else if s1.device.tmode = "Heat" then
    { s1 with target := some s1.device.t_heat, op := OpState.heat }
  else
    { s1 with op := OpState.idle }

/-- `set_time`: writes the current weekday/hour/minute to `device.time`. The
clock reading `datetime.datetime.now()` is passed in as `now`. -/
def set_time (s : RadioThermostat) (now : ℕ × ℕ × ℕ) : RadioThermostat :=
  { s with device := { s.device with time := now } }

/-- `RadioThermostat.__init__`: stores the device handle, calls `set_time`,
initialises the attributes (`_target_temperature = None`, `away = False`, …),
calls `update`, and finally`self.old_temp = self.target_temperature` — a read
that raises `TypeError` when `update` left `_target_temperature` as `None`. -/
def init (device : TstatDevice) (hold_temp : Bool) (away_delta : ℚ) (now : ℕ × ℕ × ℕ) :
    Except PyExn RadioThermostat :=
  let s0 : RadioThermostat :=
    { device := device, target := none, current := none, op := OpState.idle,
      tname := none, hold_temp := hold_temp, away := false, away_delta := away_delta,
      old_temp := none }
  let s1 := (s0.set_time now).update
  match s1.target_temperature with
  | .error e => .error e
  | .ok t => .ok { s1 with old_temp := some t }

end RadioThermostat

/-- The per-host body of the `for host in hosts:` loop of `setup_platform`:
`radiotherm.get_thermostat(host)` (an external call, passed in as
`get_thermostat`) followed by the `RadioThermostat` constructor. Either call
may raise. -/
def connect_host (get_thermostat : String → Except PyExn TstatDevice)
    (hold_temp : Bool) (away_delta : ℚ) (now : ℕ × ℕ × ℕ) (host : String) :
    Except PyExn RadioThermostat :=
  match get_thermostat host with
  | .error e => .error e
  | .ok device => RadioThermostat.init device hold_temp away_delta now

/-- The `for host in hosts:` loop of `setup_platform`: each host's entity is
appended to `tstats`; a raised `URLError` or `OSError` is caught, logged and
skipped; any other exception propagates out of `setup_platform`. The `.ok`
value is the list passed to `add_devices(tstats)`. -/
def setup_platform_loop (get_thermostat : String → Except PyExn TstatDevice)
    (hold_temp : Bool) (away_delta : ℚ) (now : ℕ × ℕ × ℕ) :
    List String → Except PyExn (List RadioThermostat)
  | [] => .ok []
  | host :: rest =>
    match connect_host get_thermostat hold_temp away_delta now host with
    | .ok tstat =>
        match setup_platform_loop get_thermostat hold_temp away_delta now rest with
        | .ok tail => .ok (tstat :: tail)
        | .error e => .error e
    | .error e =>
        if e.isConnError then setup_platform_loop get_thermostat hold_temp away_delta now rest
        else .error e

/-- A per-host outcome of the `setup_platform` loop body that does not abort
the loop: either the entity was created, or the raised exception is one the
`except (URLError, OSError)` clause catches. -/
def connectOutcomeHandled : Except PyExn RadioThermostat → Bool
  | .ok _ => true
  | .error e => e.isConnError

/-! ## Concrete fixtures used by the witness theorems -/

/-- A device snapshot reporting `Cool` mode, used to instantiate theorems at a
concrete input. -/
def demoDevice : TstatDevice :=
  { temp := 70, dname := "demo", tmode := "Cool", fmode := "Auto",
    t_cool := 75, t_heat := 68, hold := 0, time := (0, 0, 0) }

/-- A device snapshot reporting a mode that is neither `Cool` nor `Heat`. -/
def demoDeviceOff : TstatDevice :=
  { demoDevice with tmode := "Off" }

/-- A `radiotherm.get_thermostat` stand-in: one host raises `URLError`, every
other host yields `demoDevice`. -/
def demoGet : String → Except PyExn TstatDevice :=
  fun host => if host = "10.0.0.2" then .error .urlError else .ok demoDevice

/-- A thermostat entity state as produced by a successful constructor run on a
cooling device. -/
def demoTstat : RadioThermostat :=
  { device := demoDevice, target := some 75, current := some 70, op := OpState.cool,
    tname := some "demo", hold_temp := false, away := false, away_delta := 10,
    old_temp := some 75 }

/-- A camera state holding a cached URL and image. -/
def demoCam : BloomSkyCamera :=
  { url := "http://img/1", last_url := "http://img/1", last_image := "oldbytes" }

/-! ## Theorems: camera -/

/-- C2: `camera_image` never raises — for every camera state and every outcome
of the HTTP GET, the call returns normally (`Except.ok`), and when the GET
raised a network exception the caller receives `None`. -/
theorem camera_image_never_raises (s : BloomSkyCamera) (u : String) (g : GetOutcome) :
    (camera_image s u g).isOk = true ∧
    (g = GetOutcome.exn → u ≠ s.last_url →
      camera_image s u g = .ok ({ s with url := u }, none, 1)) := by
  unfold camera_image camera_image_try
  by_cases h : u = s.last_url
  · simp [h, Except.isOk, Except.toBool]
  · cases g <;> simp [h, Except.isOk, Except.toBool]

/-- C2 witness: the theorem at a concrete state and a raising GET. -/
theorem camera_image_never_raises_witness :
    (camera_image demoCam "http://img/2" GetOutcome.exn).isOk = true ∧
    (GetOutcome.exn = GetOutcome.exn → "http://img/2" ≠ demoCam.last_url →
      camera_image demoCam "http://img/2" GetOutcome.exn =
        .ok ({ demoCam with url := "http://img/2" }, none, 1)) :=
  camera_image_never_raises demoCam "http://img/2" GetOutcome.exn

/-- C3: when the observed URL equals the cached URL, no HTTP GET is performed
and the cached bytes are returned unchanged; and the cached bytes are replaced
only when the observed URL differs from the cached one. -/
theorem camera_image_cache_hit (s : BloomSkyCamera) (u : String) (g : GetOutcome) :
    (u = s.last_url →
      camera_image s u g = .ok ({ s with url := u }, some s.last_image, 0)) ∧
    (∀ s' img n, camera_image s u g = .ok (s', img, n) →
      s'.last_image ≠ s.last_image → u ≠ s.last_url) := by
  unfold camera_image camera_image_try
  by_cases h : u = s.last_url
  · constructor
    · intro _
      simp [h]
    · intro s' img n heq hne
      simp [h] at heq
      rcases heq with ⟨hs', _, _⟩
      rw [← hs'] at hne
      simp at hne
  · constructor
    · intro h'
      exact absurd h' h
    · intro _ _ _ _ _
      exact h

/-- C3 witness: the theorem at a concrete state whose cached URL matches. -/
theorem camera_image_cache_hit_witness :
    ("http://img/1" = demoCam.last_url →
      camera_image demoCam "http://img/1" GetOutcome.exn =
        .ok ({ demoCam with url := "http://img/1" }, some demoCam.last_image, 0)) ∧
    (∀ s' img n, camera_image demoCam "http://img/1" GetOutcome.exn = .ok (s', img, n) →
      s'.last_image ≠ demoCam.last_image → "http://img/1" ≠ demoCam.last_url) :=
  camera_image_cache_hit demoCam "http://img/1" GetOutcome.exn

/-- C4: when the observed URL differs from the cached URL and the GET returns
content, exactly one HTTP GET is performed, the cache now stores the new URL
and the fetched bytes, and those bytes are returned. -/
theorem camera_image_cache_miss (s : BloomSkyCamera) (u : String) (c : String)
    (h : u ≠ s.last_url) :
    camera_image s u (GetOutcome.ok c) =
      .ok ({ url := u, last_url := u, last_image := c }, some c, 1) := by
  unfold camera_image camera_image_try
  simp [h]

/-- C4 witness: the theorem at a concrete state and a fresh URL. -/
theorem camera_image_cache_miss_witness :
    camera_image demoCam "http://img/2" (GetOutcome.ok "newbytes") =
      .ok ({ url := "http://img/2", last_url := "http://img/2",
             last_image := "newbytes" }, some "newbytes", 1) :=
  camera_image_cache_miss demoCam "http://img/2" "newbytes" (by decide)

/-- C9: when the GET raises, the cached URL and bytes are unchanged and `None`
is returned; a later call observing the same new URL performs the GET again. -/
theorem camera_image_error_keeps_cache (s : BloomSkyCamera) (u : String)
    (h : u ≠ s.last_url) :
    ∃ s', camera_image s u GetOutcome.exn = .ok (s', none, 1) ∧
      s'.last_url = s.last_url ∧ s'.last_image = s.last_image ∧
      ∀ g', ∃ t img, camera_image s' u g' = .ok (t, img, 1) := by
  refine ⟨{ s with url := u }, ?_, rfl, rfl, ?_⟩
  · unfold camera_image camera_image_try
    simp [h]
  · intro g'
    cases g' with
    | ok c =>
        refine ⟨{ url := u, last_url := u, last_image := c }, some c, ?_⟩
        unfold camera_image camera_image_try
        simp [h]
    | exn =>
        refine ⟨{ s with url := u }, none, ?_⟩
        unfold camera_image camera_image_try
        simp [h]

/-- C9 witness: the theorem at a concrete state and a fresh URL. -/
theorem camera_image_error_keeps_cache_witness :
    ∃ s', camera_image demoCam "http://img/2" GetOutcome.exn = .ok (s', none, 1) ∧
      s'.last_url = demoCam.last_url ∧ s'.last_image = demoCam.last_image ∧
      ∀ g', ∃ t img, camera_image s' "http://img/2" g' = .ok (t, img, 1) :=
  camera_image_error_keeps_cache demoCam "http://img/2" (by decide)

/-! ## Theorems: thermostat -/

/-- `set_temperature` in cooling mode: the cool setpoint takes the new value
and the hold flag is rewritten; nothing else changes. -/
theorem set_temperature_cool_eq (s : RadioThermostat) (h : s.op = OpState.cool) (temp : ℚ) :
    s.set_temperature temp =
      { s with device :=
        { s.device with t_cool := temp, hold := if s.hold_temp then 1 else 0 } } := by
  cases hh : s.hold_temp <;> simp [RadioThermostat.set_temperature, h, hh]

/-- `set_temperature` in heating mode: the heat setpoint takes the new value
and the hold flag is rewritten; nothing else changes. -/
theorem set_temperature_heat_eq (s : RadioThermostat) (h : s.op = OpState.heat) (temp : ℚ) :
    s.set_temperature temp =
      { s with device :=
        { s.device with t_heat := temp, hold := if s.hold_temp then 1 else 0 } } := by
  cases hh : s.hold_temp <;> simp [RadioThermostat.set_temperature, h, hh]

/-- C6: every `set_temperature` call, whatever the temperature argument and
the operation mode, leaves the device hold flag at `1` exactly when the
`hold_temp` configuration is true and at `0` otherwise. -/
theorem set_temperature_sets_hold_flag (s : RadioThermostat) (temp : ℚ) :
    (s.set_temperature temp).device.hold = if s.hold_temp then 1 else 0 := by
  cases hh : s.hold_temp <;>
    rcases hop : s.op <;>
    simp [RadioThermostat.set_temperature, hop, hh]

/-- C5: with a readable target temperature, `turn_away_mode_on` in cooling
mode saves the rounded pre-away target and writes that value plus
`away_delta` to the device cool setpoint; in heating mode it writes the saved
value minus `away_delta` to the device heat setpoint. -/
theorem turn_away_mode_on_applies_delta (s : RadioThermostat) (t : ℚ)
    (ht : s.target = some t) :
    (s.op = OpState.cool → ∃ s', s.turn_away_mode_on = .ok s' ∧
      s'.old_temp = some (pyRound1 t) ∧
      s'.device.t_cool = pyRound1 t + s.away_delta) ∧
    (s.op = OpState.heat → ∃ s', s.turn_away_mode_on = .ok s' ∧
      s'.old_temp = some (pyRound1 t) ∧
      s'.device.t_heat = pyRound1 t - s.away_delta) := by
  constructor <;> intro hop <;>
    cases hh : s.hold_temp <;>
    simp [RadioThermostat.turn_away_mode_on, RadioThermostat.target_temperature, ht, hop,
      RadioThermostat.set_temperature, hh]

/-- C5 witness: the theorem at a concrete cooling-mode entity. -/
theorem turn_away_mode_on_applies_delta_witness :
    (demoTstat.op = OpState.cool → ∃ s', demoTstat.turn_away_mode_on = .ok s' ∧
      s'.old_temp = some (pyRound1 75) ∧
      s'.device.t_cool = pyRound1 75 + demoTstat.away_delta) ∧
    (demoTstat.op = OpState.heat → ∃ s', demoTstat.turn_away_mode_on = .ok s' ∧
      s'.old_temp = some (pyRound1 75) ∧
      s'.device.t_heat = pyRound1 75 - demoTstat.away_delta) :=
  turn_away_mode_on_applies_delta demoTstat 75 rfl

/-- C1: for an entity in heat or cool mode with a readable target,
`turn_away_mode_on` followed immediately by `turn_away_mode_off` writes the
exact pre-away target temperature back to the device setpoint. -/
theorem turn_away_on_off_restores_target (s : RadioThermostat) (t : ℚ)
    (ht : s.target = some t)
    (hop : s.op = OpState.cool ∨ s.op = OpState.heat) :
    s.target_temperature = .ok (pyRound1 t) ∧
    ∃ s1 s2, s.turn_away_mode_on = .ok s1 ∧ s1.turn_away_mode_off = .ok s2 ∧
      (s.op = OpState.cool → s2.device.t_cool = pyRound1 t) ∧
      (s.op = OpState.heat → s2.device.t_heat = pyRound1 t) := by
  rcases hop with hop | hop <;>
    cases hh : s.hold_temp <;>
    simp [RadioThermostat.turn_away_mode_on, RadioThermostat.turn_away_mode_off,
      RadioThermostat.target_temperature, ht, hop, RadioThermostat.set_temperature, hh]

/-- C1 witness: the theorem at a concrete cooling-mode entity. -/
theorem turn_away_on_off_restores_target_witness :
    demoTstat.target_temperature = .ok (pyRound1 75) ∧
    ∃ s1 s2, demoTstat.turn_away_mode_on = .ok s1 ∧ s1.turn_away_mode_off = .ok s2 ∧
      (demoTstat.op = OpState.cool → s2.device.t_cool = pyRound1 75) ∧
      (demoTstat.op = OpState.heat → s2.device.t_heat = pyRound1 75) :=
  turn_away_on_off_restores_target demoTstat 75 rfl (Or.inl rfl)

/-- C8: constructing a `RadioThermostat` on a device whose reported mode is
neither `Cool` nor `Heat` raises `TypeError` instead of producing an entity:
`update` leaves the internal target temperature untouched (still `None`), so
the constructor's final read of `target_temperature` evaluates
`round(None, 1)`. -/
theorem init_raises_outside_heat_cool (device : TstatDevice) (hold_temp : Bool)
    (away_delta : ℚ) (now : ℕ × ℕ × ℕ)
    (hc : device.tmode ≠ "Cool") (hh : device.tmode ≠ "Heat") :
    RadioThermostat.init device hold_temp away_delta now = .error PyExn.typeError ∧
    ∀ s : RadioThermostat, s.device.tmode = device.tmode →
      (s.update).target = s.target := by
  constructor
  · simp [RadioThermostat.init, RadioThermostat.set_time, RadioThermostat.update,
      RadioThermostat.target_temperature, hc, hh]
  · intro s hs
    simp [RadioThermostat.update, hs, hc, hh]

/-- C8 witness: the theorem at a concrete device reporting mode `Off`. -/
theorem init_raises_outside_heat_cool_witness :
    RadioThermostat.init demoDeviceOff false 10 (0, 0, 0) = .error PyExn.typeError ∧
    ∀ s : RadioThermostat, s.device.tmode = demoDeviceOff.tmode →
      (s.update).target = s.target :=
  init_raises_outside_heat_cool demoDeviceOff false 10 (0, 0, 0) (by decide) (by decide)

/-- C10: `update` never modifies the away flag, the saved pre-away target, the
configured delta, the hold configuration, or the device handle; and outside
heat and cool modes it does not touch the target temperature either. -/
theorem update_preserves_away_state (s : RadioThermostat) :
    (s.update).away = s.away ∧ (s.update).old_temp = s.old_temp ∧
    (s.update).away_delta = s.away_delta ∧ (s.update).hold_temp = s.hold_temp ∧
    (s.update).device = s.device ∧
    (s.device.tmode ≠ "Cool" → s.device.tmode ≠ "Heat" →
      (s.update).target = s.target) := by
  by_cases h1 : s.device.tmode = "Cool" <;> by_cases h2 : s.device.tmode = "Heat" <;>
    simp [RadioThermostat.update, h1, h2]

/-- C10 witness: the theorem at a concrete entity with away mode engaged. -/
theorem update_preserves_away_state_witness :
    (demoTstat.update).away = demoTstat.away ∧
    (demoTstat.update).old_temp = demoTstat.old_temp ∧
    (demoTstat.update).away_delta = demoTstat.away_delta ∧
    (demoTstat.update).hold_temp = demoTstat.hold_temp ∧
    (demoTstat.update).device = demoTstat.device ∧
    (demoTstat.device.tmode ≠ "Cool" → demoTstat.device.tmode ≠ "Heat" →
      (demoTstat.update).target = demoTstat.target) :=
  update_preserves_away_state demoTstat

/-- When every host's connection outcome is handled — the entity was created,
or the raised exception is a caught connection error — the setup loop runs to
the end of the host list and delivers exactly the successfully created
entities, in order. -/
theorem setup_platform_loop_ok (get_thermostat : String → Except PyExn TstatDevice)
    (hold_temp : Bool) (away_delta : ℚ) (now : ℕ × ℕ × ℕ) (hosts : List String)
    (hall : ∀ h ∈ hosts,
      connectOutcomeHandled (connect_host get_thermostat hold_temp away_delta now h) = true) :
    setup_platform_loop get_thermostat hold_temp away_delta now hosts =
      .ok (hosts.filterMap
        fun h => (connect_host get_thermostat hold_temp away_delta now h).toOption) := by
  induction hosts with
  | nil => simp [setup_platform_loop]
  | cons h rest ih =>
    have hh := hall h (List.mem_cons_self h rest)
    have hrest : ∀ x ∈ rest,
        connectOutcomeHandled (connect_host get_thermostat hold_temp away_delta now x) = true :=
      fun x hx => hall x (List.mem_cons_of_mem h hx)
    rcases hc : connect_host get_thermostat hold_temp away_delta now h with e | tstat
    · rw [hc] at hh
      simp [connectOutcomeHandled] at hh
      simp [setup_platform_loop, hc, hh, ih hrest, Except.toOption]
    · simp [setup_platform_loop, hc, ih hrest, Except.toOption]

/-- C7: if connecting to one host raises a caught connection error while every
host's outcome is either success or a caught connection error, setup does not
abort: the failing host's entity is omitted and every successfully created
entity is in the list passed to `add_devices`. -/
theorem setup_platform_skips_failed_host (get_thermostat : String → Except PyExn TstatDevice)
    (hold_temp : Bool) (away_delta : ℚ) (now : ℕ × ℕ × ℕ) (hosts : List String)
    (badHost : String) (e : PyExn)
    (hmem : badHost ∈ hosts)
    (hfail : connect_host get_thermostat hold_temp away_delta now badHost = .error e)
    (hconn : e.isConnError = true)
    (hall : ∀ h ∈ hosts,
      connectOutcomeHandled (connect_host get_thermostat hold_temp away_delta now h) = true) :
    ∃ tstats, setup_platform_loop get_thermostat hold_temp away_delta now hosts = .ok tstats ∧
      tstats = hosts.filterMap
        (fun h => (connect_host get_thermostat hold_temp away_delta now h).toOption) ∧
      (connect_host get_thermostat hold_temp away_delta now badHost).toOption = none ∧
      (∀ h ∈ hosts, ∀ tstat,
        connect_host get_thermostat hold_temp away_delta now h = .ok tstat →
          tstat ∈ tstats) := by
  refine ⟨_, setup_platform_loop_ok get_thermostat hold_temp away_delta now hosts hall,
    rfl, ?_, ?_⟩
  · rw [hfail]
    rfl
  · intro h hm tstat hok
    exact List.mem_filterMap.mpr ⟨h, hm, by rw [hok]; rfl⟩

/-- C7 witness: three hosts, the middle one raising `URLError`; the other two
entities are still delivered. -/
theorem setup_platform_skips_failed_host_witness :
    ∃ tstats, setup_platform_loop demoGet false 10 (0, 0, 0)
        ["10.0.0.1", "10.0.0.2", "10.0.0.3"] = .ok tstats ∧
      tstats = ["10.0.0.1", "10.0.0.2", "10.0.0.3"].filterMap
        (fun h => (connect_host demoGet false 10 (0, 0, 0) h).toOption) ∧
      (connect_host demoGet false 10 (0, 0, 0) "10.0.0.2").toOption = none ∧
      (∀ h ∈ ["10.0.0.1", "10.0.0.2", "10.0.0.3"], ∀ tstat,
        connect_host demoGet false 10 (0, 0, 0) h = .ok tstat → tstat ∈ tstats) :=
  setup_platform_skips_failed_host demoGet false 10 (0, 0, 0)
    ["10.0.0.1", "10.0.0.2", "10.0.0.3"] "10.0.0.2" PyExn.urlError
    (by decide) rfl rfl (by decide)
